import Mathlib

/-!
Shallow embedding of the inbound-message dispatcher of
`raiden/message_handler.py` (class `MessageHandler`).

Modelling conventions:
- Addresses, hashes, identifiers and amounts are `Nat`; secrets are byte
  strings modelled as `List Nat`.
- The external collaborators (secret registry, routing, chain-state views,
  random secret generation) are supplied as an `Env` of pure functions.
  `chain_state` is computed once per dispatch from the raiden service, and
  `config`/`privkey` are constants of the node, so they are folded into the
  collaborator functions of `Env`.
- A dispatch call is modelled as a function returning the ordered list of
  observable effects (`Event`): state changes handed to
  `raiden.handle_and_track_state_change`, calls to the target/mediate
  mediated-transfer entry points, log records (with the formatted log text
  abstracted to its structured payload), and the queries issued to the
  secret registry and the routing collaborator.
- Python exceptions are modelled with `Except`: `on_message` returns
  `Except PyError (List Event)`.
- A message's Python runtime class (the value `type(message)` compared by
  the dispatcher) is modelled as an explicit `kind` discriminant on a flat
  `Message` record carrying the union of all message fields, so that two
  messages can be structurally identical while carrying different kinds.
-/

/-- Block identifier passed to the on-chain secret registry query. -/
inductive BlockId
  | latest
  | specific (n : Nat)
  deriving DecidableEq

/-- Modelled from the spec: `ABSENT_SECRET` from `raiden.constants` (not under
`src/`), the explicit sentinel denoting that the initiator has not yet learned
the secret; the sentinel is the empty byte string, so any actual secret is
non-empty. -/
def ABSENT_SECRET : List Nat := []

/-- A pending lock of a mediated transfer, as read by the handlers
(`amount` and `secrethash`). -/
structure Lock where
  amount : Nat
  secrethash : Nat
  deriving DecidableEq

/-- Envelope (balance-proof fields) carried by `Unlock`, `LockExpired`,
`RefundTransfer` and `LockedTransfer` messages. `signer` is the address
recovered from the envelope signature. -/
structure Envelope where
  channel_identifier : Nat
  token_network_identifier : Nat
  nonce : Nat
  locksroot : Nat
  transferred_amount : Nat
  locked_amount : Nat
  signer : Nat
  deriving DecidableEq

/-- Balance proof derived from an envelope. -/
structure BalanceProof where
  channel_identifier : Nat
  token_network_identifier : Nat
  nonce : Nat
  locksroot : Nat
  transferred_amount : Nat
  locked_amount : Nat
  sender : Nat
  deriving DecidableEq

/-- Modelled from the spec: `balanceproof_from_envelope` from
`raiden.transfer.state` (not under `src/`): a `BalanceProof` is always derived
from an envelope, and its `sender` is the signer embedded in the envelope,
independent of the outer message's transport sender. -/
def balanceproof_from_envelope (e : Envelope) : BalanceProof :=
  { channel_identifier := e.channel_identifier
    token_network_identifier := e.token_network_identifier
    nonce := e.nonce
    locksroot := e.locksroot
    transferred_amount := e.transferred_amount
    locked_amount := e.locked_amount
    sender := e.signer }

/-- The exact protocol kind of a message: the model of the Python runtime
class compared with `type(message) == ...` in `on_message`. `unknown tag`
stands for any class outside the nine handled kinds. -/
inductive MessageKind
  | secretRequest
  | revealSecret
  | unlock
  | lockExpired
  | refundTransfer
  | lockedTransfer
  | withdrawRequest
  | delivered
  | processed
  | unknown (tag : Nat)
  deriving DecidableEq

/-- An inbound protocol message: the `kind` discriminant together with the
union of the fields the handlers read. Keeping the fields in one flat record
lets two messages be structurally identical while declared as different
kinds. -/
structure Message where
  kind : MessageKind
  cmdid : Nat
  sender : Nat
  payment_identifier : Nat
  amount : Nat
  expiration : Nat
  secrethash : Nat
  secret : List Nat
  message_identifier : Nat
  delivered_message_identifier : Nat
  token_network_address : Nat
  token_network_identifier : Nat
  channel_identifier : Nat
  target : Nat
  lock : Lock
  envelope : Envelope
  deriving DecidableEq

/-- The locally-signed representation of the refunded transfer, as
reconstructed from a `RefundTransfer` message (the fields read by
`handle_message_refundtransfer`). -/
structure LockedTransferSigned where
  target : Nat
  lock : Lock
  balance_proof : BalanceProof
  deriving DecidableEq

/-- Modelled from the spec: `lockedtransfersigned_from_message` from
`raiden.messages` (not under `src/`): reconstructs the forwarded transfer
from the refund message, recovering the lock, the target and the balance
proof derived from the envelope. -/
def lockedtransfersigned_from_message (m : Message) : LockedTransferSigned :=
  { target := m.target
    lock := m.lock
    balance_proof := balanceproof_from_envelope m.envelope }

/-- The closed set of state changes the dispatcher can emit, with the
constructor arguments in the keyword order of the source. -/
inductive StateChange
  | ReceiveSecretRequest (payment_identifier amount expiration secrethash sender : Nat)
  | ReceiveSecretReveal (secret : List Nat) (sender : Nat)
  | ReceiveUnlock (message_identifier : Nat) (secret : List Nat)
      (balance_proof : BalanceProof) (sender : Nat)
  | ReceiveLockExpired (sender : Nat) (balance_proof : BalanceProof)
      (secrethash message_identifier : Nat)
  | ReceiveTransferRefund (transfer : LockedTransferSigned)
      (balance_proof : BalanceProof) (sender : Nat) (routes : List Nat)
  | ReceiveTransferRefundCancelRoute (routes : List Nat)
      (transfer : LockedTransferSigned) (balance_proof : BalanceProof)
      (sender : Nat) (secret : List Nat)
  | ReceiveWithdrawRequest (token_network_identifier channel_identifier amount sender : Nat)
  | ReceiveDelivered (sender delivered_message_identifier : Nat)
  | ReceiveProcessed (sender message_identifier : Nat)
  deriving DecidableEq

/-- An observable effect of one dispatch call, in program order: a state
change handed to the state-machine core, a mediation entry-point call, a log
record, or a query to an external collaborator. -/
inductive Event
  | handle_and_track_state_change (sc : StateChange)
  | target_mediated_transfer (m : Message)
  | mediate_mediated_transfer (m : Message)
  | log_unknown_cmdid (cmdid : Nat)
  | log_registered_secret_warning (secrethash : Nat)
  | is_secret_registered_query (secrethash : Nat) (block_identifier : BlockId)
  | get_best_routes_query
      (token_network_address one_to_n_address from_address to_address amount previous_address : Nat)
  deriving DecidableEq

/-- A Python exception escaping the dispatcher. -/
inductive PyError
  | typeError (msg : String)
  deriving DecidableEq

/-- The external collaborators, as deterministic functions fixed for the
duration of one dispatch call. `get_best_routes` receives the arguments the
source passes (token network address, one-to-n address, from/to addresses,
amount, previous address) and returns the route list and the metadata;
`chain_state`, `config` and `privkey` are fixed per dispatch and folded in.
`random_secret` is the value produced by the cryptographic secret
generator. -/
structure Env where
  is_secret_registered : Nat → BlockId → Bool
  get_best_routes : Nat → Nat → Nat → Nat → Nat → Nat → List Nat × Nat
  get_transfer_role : Nat → String
  get_transfer_secret : Nat → List Nat
  random_secret : List Nat

/-- The node context fields the dispatcher reads directly. -/
structure Raiden where
  address : Nat
  default_one_to_n_address : Nat

/-- Handler for `SecretRequest`. -/
def handle_message_secretrequest (m : Message) : List Event :=
  [Event.handle_and_track_state_change
    (StateChange.ReceiveSecretRequest m.payment_identifier m.amount m.expiration
      m.secrethash m.sender)]

/-- Handler for `RevealSecret`. -/
def handle_message_revealsecret (m : Message) : List Event :=
  [Event.handle_and_track_state_change
    (StateChange.ReceiveSecretReveal m.secret m.sender)]

/-- Handler for `Unlock`: derives the balance proof from the envelope and
takes the state change's sender from it. -/
def handle_message_unlock (m : Message) : List Event :=
  let balance_proof := balanceproof_from_envelope m.envelope
  [Event.handle_and_track_state_change
    (StateChange.ReceiveUnlock m.message_identifier m.secret balance_proof
      balance_proof.sender)]

/-- Handler for `LockExpired`: derives the balance proof from the envelope and
takes the state change's sender from it. -/
def handle_message_lockexpired (m : Message) : List Event :=
  let balance_proof := balanceproof_from_envelope m.envelope
  [Event.handle_and_track_state_change
    (StateChange.ReceiveLockExpired balance_proof.sender balance_proof
      m.secrethash m.message_identifier)]

/-- Handler for `RefundTransfer`: reconstructs the transfer, queries routing,
determines the role, and emits either the cancel-route state change
(initiator; routes cleared when the known secret is the absent sentinel, and
a fresh random secret included in every initiator case) or the forwarding
refund state change (otherwise). -/
def handle_message_refundtransfer (env : Env) (raiden : Raiden) (m : Message) : List Event :=
  let token_network_address := m.token_network_address
  let from_transfer := lockedtransfersigned_from_message m
  let routes := (env.get_best_routes token_network_address raiden.default_one_to_n_address
    raiden.address from_transfer.target from_transfer.lock.amount m.sender).1
  let role := env.get_transfer_role from_transfer.lock.secrethash
  Event.get_best_routes_query token_network_address raiden.default_one_to_n_address
      raiden.address from_transfer.target from_transfer.lock.amount m.sender ::
  if role = "initiator" then
    let old_secret := env.get_transfer_secret from_transfer.lock.secrethash
    let routes := if old_secret = ABSENT_SECRET then [] else routes
    let secret := env.random_secret
    [Event.handle_and_track_state_change
      (StateChange.ReceiveTransferRefundCancelRoute routes from_transfer
        from_transfer.balance_proof from_transfer.balance_proof.sender secret)]
  else
    [Event.handle_and_track_state_change
      (StateChange.ReceiveTransferRefund from_transfer from_transfer.balance_proof
        from_transfer.balance_proof.sender routes)]

/-- Handler for `LockedTransfer`: queries the secret registry against the
latest block before anything else; drops the message with a warning if the
secret is registered, otherwise routes it to the target or mediate entry
point by comparing the message target with the node's own address. -/
def handle_message_lockedtransfer (env : Env) (raiden : Raiden) (m : Message) : List Event :=
  let secrethash := m.lock.secrethash
  let registered := env.is_secret_registered secrethash BlockId.latest
  Event.is_secret_registered_query secrethash BlockId.latest ::
  if registered then
    [Event.log_registered_secret_warning secrethash]
  else if m.target = raiden.address then
    [Event.target_mediated_transfer m]
  else
    [Event.mediate_mediated_transfer m]

/-- Body of `handle_message_withdrawrequest` as written in the source. Note
that in the source this handler, unlike its siblings, is not a staticmethod,
so the call site in `on_message` passes three positional arguments (the
handler instance, the raiden service and the message) to this two-parameter
function; the dispatch path therefore raises a `TypeError` before this body
can run. -/
def handle_message_withdrawrequest (m : Message) : List Event :=
  [Event.handle_and_track_state_change
    (StateChange.ReceiveWithdrawRequest m.token_network_identifier
      m.channel_identifier m.amount m.sender)]

/-- The `TypeError` raised by the bound call
`self.handle_message_withdrawrequest(raiden, message)` against the
two-parameter function. -/
def withdrawArityError : PyError :=
  PyError.typeError
    "handle_message_withdrawrequest() takes 2 positional arguments but 3 were given"

/-- Handler for `Processed`. -/
def handle_message_processed (m : Message) : List Event :=
  [Event.handle_and_track_state_change
    (StateChange.ReceiveProcessed m.sender m.message_identifier)]

/-- Handler for `Delivered`. -/
def handle_message_delivered (m : Message) : List Event :=
  [Event.handle_and_track_state_change
    (StateChange.ReceiveDelivered m.sender m.delivered_message_identifier)]

/-- The dispatcher `MessageHandler.on_message`: the chain of exact-class
comparisons of the source, in source order. A successful dispatch returns
the list of observable effects; the withdraw-request branch raises (see
`handle_message_withdrawrequest`). -/
def on_message (env : Env) (raiden : Raiden) (m : Message) : Except PyError (List Event) :=
  if m.kind = MessageKind.secretRequest then
    Except.ok (handle_message_secretrequest m)
  else if m.kind = MessageKind.revealSecret then
    Except.ok (handle_message_revealsecret m)
  else if m.kind = MessageKind.unlock then
    Except.ok (handle_message_unlock m)
  else if m.kind = MessageKind.lockExpired then
    Except.ok (handle_message_lockexpired m)
  else if m.kind = MessageKind.refundTransfer then
    Except.ok (handle_message_refundtransfer env raiden m)
  else if m.kind = MessageKind.lockedTransfer then
    Except.ok (handle_message_lockedtransfer env raiden m)
  else if m.kind = MessageKind.withdrawRequest then
    Except.error withdrawArityError
  else if m.kind = MessageKind.delivered then
    Except.ok (handle_message_delivered m)
  else if m.kind = MessageKind.processed then
    Except.ok (handle_message_processed m)
  else
    Except.ok [Event.log_unknown_cmdid m.cmdid]

/-! ### Dispatch helper lemmas -/

/-- Dispatching a message whose exact kind is RefundTransfer runs the refund handler. -/
theorem on_message_kind_refundtransfer (env : Env) (raiden : Raiden) (m : Message)
    (hk : m.kind = MessageKind.refundTransfer) :
    on_message env raiden m = Except.ok (handle_message_refundtransfer env raiden m) := by
  simp [on_message, hk]

/-- Dispatching a message whose exact kind is LockedTransfer runs the locked-transfer handler. -/
theorem on_message_kind_lockedtransfer (env : Env) (raiden : Raiden) (m : Message)
    (hk : m.kind = MessageKind.lockedTransfer) :
    on_message env raiden m = Except.ok (handle_message_lockedtransfer env raiden m) := by
  simp [on_message, hk]

/-! ### Concrete fixtures for witnesses and counterexamples -/

/-- Concrete lock used by the witness scenarios. -/
def lockT : Lock := { amount := 5, secrethash := 77 }

/-- Concrete envelope whose signer (900) differs from the transport sender (100). -/
def envelopeT : Envelope :=
  { channel_identifier := 1, token_network_identifier := 2, nonce := 3,
    locksroot := 4, transferred_amount := 6, locked_amount := 5, signer := 900 }

/-- Concrete node context. -/
def raidenT : Raiden := { address := 500, default_one_to_n_address := 600 }

/-- A concrete message of the given kind; all payload fields are fixed, so two
messages built from different kinds are structurally identical apart from the
kind discriminant. -/
def mkMessage (k : MessageKind) : Message :=
  { kind := k, cmdid := 7, sender := 100, payment_identifier := 11, amount := 5,
    expiration := 50, secrethash := 77, secret := [9, 9], message_identifier := 12,
    delivered_message_identifier := 13, token_network_address := 14,
    token_network_identifier := 2, channel_identifier := 1, target := 200,
    lock := lockT, envelope := envelopeT }

/-- Collaborator fake: secret unregistered, routing returns two routes, role
initiator, locally known secret absent, 32-byte random secret. -/
def envAbsent : Env :=
  { is_secret_registered := fun _ _ => false
    get_best_routes := fun _ _ _ _ _ _ => ([21, 22], 0)
    get_transfer_role := fun _ => "initiator"
    get_transfer_secret := fun _ => ABSENT_SECRET
    random_secret := List.replicate 32 7 }

/-- Collaborator fake: like envAbsent, but the locally known secret is the
concrete value [5, 5] and the generated random secret is [7, 7]. -/
def envKnown : Env :=
  { envAbsent with
    get_transfer_secret := fun _ => [5, 5]
    random_secret := [7, 7] }

/-- Collaborator fake: the role is mediator and routing finds no routes. -/
def envMediator : Env :=
  { envAbsent with
    get_transfer_role := fun _ => "mediator"
    get_best_routes := fun _ _ _ _ _ _ => ([], 0) }

/-- Collaborator fake: the secret is already registered on-chain. -/
def envRegistered : Env :=
  { envAbsent with is_secret_registered := fun _ _ => true }

/-! ### Claim theorems -/

/-- C1: for a dispatched RefundTransfer where the role for the transfer
secrethash is initiator and the locally known secret is the absent sentinel,
the emitted state change is a ReceiveTransferRefundCancelRoute with an empty
route list (whatever routing returned, since env is arbitrary) and a
non-empty freshly generated secret; no other state change is emitted. -/
theorem refundtransfer_initiator_absent_secret_cancels_all_routes
    (env : Env) (raiden : Raiden) (m : Message)
    (hk : m.kind = MessageKind.refundTransfer)
    (hrole : env.get_transfer_role m.lock.secrethash = "initiator")
    (habs : env.get_transfer_secret m.lock.secrethash = ABSENT_SECRET)
    (hlen : env.random_secret.length = 32) :
    env.random_secret ≠ ABSENT_SECRET ∧
    on_message env raiden m = Except.ok
      [Event.get_best_routes_query m.token_network_address raiden.default_one_to_n_address
         raiden.address m.target m.lock.amount m.sender,
       Event.handle_and_track_state_change
         (StateChange.ReceiveTransferRefundCancelRoute []
           (lockedtransfersigned_from_message m)
           (lockedtransfersigned_from_message m).balance_proof
           (lockedtransfersigned_from_message m).balance_proof.sender
           env.random_secret)] := by
  refine ⟨?_, ?_⟩
  · intro h
    rw [h] at hlen
    simp [ABSENT_SECRET] at hlen
  · rw [on_message_kind_refundtransfer env raiden m hk]
    simp [handle_message_refundtransfer, lockedtransfersigned_from_message,
      balanceproof_from_envelope, hrole, habs]

/-- Witness for C1 at the concrete fixtures: role initiator, absent secret,
routing returning two routes, a 32-byte fresh secret. -/
theorem refundtransfer_initiator_absent_secret_cancels_all_routes_witness :
    envAbsent.random_secret ≠ ABSENT_SECRET ∧
    on_message envAbsent raidenT (mkMessage MessageKind.refundTransfer) = Except.ok
      [Event.get_best_routes_query 14 600 500 200 5 100,
       Event.handle_and_track_state_change
         (StateChange.ReceiveTransferRefundCancelRoute []
           (lockedtransfersigned_from_message (mkMessage MessageKind.refundTransfer))
           (lockedtransfersigned_from_message (mkMessage MessageKind.refundTransfer)).balance_proof
           (lockedtransfersigned_from_message (mkMessage MessageKind.refundTransfer)).balance_proof.sender
           envAbsent.random_secret)] :=
  refundtransfer_initiator_absent_secret_cancels_all_routes envAbsent raidenT
    (mkMessage MessageKind.refundTransfer) rfl rfl rfl rfl

/-- C2: for a dispatched LockedTransfer, the registry is queried with the
latest block identifier for the lock secrethash as the very first effect, and
when the query answers true the only further effect is the warning log: no
state change, no target or mediate call, no exception, whatever the target
address is. -/
theorem lockedtransfer_registered_secret_dropped
    (env : Env) (raiden : Raiden) (m : Message)
    (hk : m.kind = MessageKind.lockedTransfer)
    (hreg : env.is_secret_registered m.lock.secrethash BlockId.latest = true) :
    on_message env raiden m = Except.ok
      [Event.is_secret_registered_query m.lock.secrethash BlockId.latest,
       Event.log_registered_secret_warning m.lock.secrethash] := by
  rw [on_message_kind_lockedtransfer env raiden m hk]
  simp [handle_message_lockedtransfer, hreg]

/-- Witness for C2 at the concrete fixtures; the message target (200) differs
from the node address (500), and the drop happens nonetheless. -/
theorem lockedtransfer_registered_secret_dropped_witness :
    envRegistered.is_secret_registered 77 BlockId.latest = true ∧
    on_message envRegistered raidenT (mkMessage MessageKind.lockedTransfer) = Except.ok
      [Event.is_secret_registered_query 77 BlockId.latest,
       Event.log_registered_secret_warning 77] :=
  ⟨rfl, lockedtransfer_registered_secret_dropped envRegistered raidenT
    (mkMessage MessageKind.lockedTransfer) rfl rfl⟩

/-- C6: for a dispatched LockedTransfer whose secrethash is not registered,
exactly one of the two mediated-transfer entry points is called with the
original message unmodified, chosen by comparing the message target with the
node address, and no state change is emitted by the dispatcher. -/
theorem lockedtransfer_unregistered_target_vs_mediate
    (env : Env) (raiden : Raiden) (m : Message)
    (hk : m.kind = MessageKind.lockedTransfer)
    (hreg : env.is_secret_registered m.lock.secrethash BlockId.latest = false) :
    on_message env raiden m = Except.ok
      [Event.is_secret_registered_query m.lock.secrethash BlockId.latest,
       if m.target = raiden.address then Event.target_mediated_transfer m
       else Event.mediate_mediated_transfer m] := by
  rw [on_message_kind_lockedtransfer env raiden m hk]
  by_cases ht : m.target = raiden.address <;>
    simp [handle_message_lockedtransfer, hreg, ht]

/-- Witness for C6, covering both branches: a message targeted at the node
address (500) goes to the target entry point, the same message targeted
elsewhere (200) goes to the mediate entry point. -/
theorem lockedtransfer_unregistered_target_vs_mediate_witness :
    envAbsent.is_secret_registered 77 BlockId.latest = false ∧
    on_message envAbsent raidenT { mkMessage MessageKind.lockedTransfer with target := 500 } =
      Except.ok
        [Event.is_secret_registered_query 77 BlockId.latest,
         Event.target_mediated_transfer { mkMessage MessageKind.lockedTransfer with target := 500 }] ∧
    on_message envAbsent raidenT (mkMessage MessageKind.lockedTransfer) =
      Except.ok
        [Event.is_secret_registered_query 77 BlockId.latest,
         Event.mediate_mediated_transfer (mkMessage MessageKind.lockedTransfer)] :=
  ⟨rfl,
   lockedtransfer_unregistered_target_vs_mediate envAbsent raidenT
     { mkMessage MessageKind.lockedTransfer with target := 500 } rfl rfl,
   lockedtransfer_unregistered_target_vs_mediate envAbsent raidenT
     (mkMessage MessageKind.lockedTransfer) rfl rfl⟩

/-- C9: dispatching a message whose kind is none of the nine known kinds only
logs the unknown cmdid: no state change, no mediation call, and no
exception. -/
theorem unknown_kind_logged_and_dropped
    (env : Env) (raiden : Raiden) (m : Message) (tag : Nat)
    (hk : m.kind = MessageKind.unknown tag) :
    on_message env raiden m = Except.ok [Event.log_unknown_cmdid m.cmdid] := by
  simp [on_message, hk]

/-- Witness for C9 at a concrete message of unknown kind 42. -/
theorem unknown_kind_logged_and_dropped_witness :
    on_message envAbsent raidenT (mkMessage (MessageKind.unknown 42)) =
      Except.ok [Event.log_unknown_cmdid 7] :=
  unknown_kind_logged_and_dropped envAbsent raidenT
    (mkMessage (MessageKind.unknown 42)) 42 rfl

/-- C4 (code bug): dispatching a WithdrawRequest does not emit a
ReceiveWithdrawRequest; because the source handler is not a staticmethod, the
bound call in on_message passes three positional arguments to the
two-parameter function and a TypeError escapes to the caller of dispatch.
This theorem evaluates the dispatcher at a concrete WithdrawRequest
message. -/
theorem withdrawrequest_dispatch_raises_typeerror :
    on_message envAbsent raidenT (mkMessage MessageKind.withdrawRequest) =
      Except.error withdrawArityError := rfl

/-- Dispatcher defined as a closed match on the kind discriminant alone,
following the spec sentence that handler selection depends strictly on the
exact kind tag; to be compared with on_message. -/
def dispatch_by_exact_kind (env : Env) (raiden : Raiden) (m : Message) :
    Except PyError (List Event) :=
  match m.kind with
  | MessageKind.secretRequest => Except.ok (handle_message_secretrequest m)
  | MessageKind.revealSecret => Except.ok (handle_message_revealsecret m)
  | MessageKind.unlock => Except.ok (handle_message_unlock m)
  | MessageKind.lockExpired => Except.ok (handle_message_lockexpired m)
  | MessageKind.refundTransfer => Except.ok (handle_message_refundtransfer env raiden m)
  | MessageKind.lockedTransfer => Except.ok (handle_message_lockedtransfer env raiden m)
  | MessageKind.withdrawRequest => Except.error withdrawArityError
  | MessageKind.delivered => Except.ok (handle_message_delivered m)
  | MessageKind.processed => Except.ok (handle_message_processed m)
  | MessageKind.unknown _ => Except.ok [Event.log_unknown_cmdid m.cmdid]

/-- C5: the dispatcher equals a closed match on the exact kind discriminant,
so handler selection depends only on the declared kind: a message whose
payload is structurally identical to kind A but whose kind is B is dispatched
to the branch of B, never to the handler of A. -/
theorem on_message_eq_dispatch_by_exact_kind
    (env : Env) (raiden : Raiden) (m : Message) :
    on_message env raiden m = dispatch_by_exact_kind env raiden m := by
  cases m with
  | mk kind cmdid sender payment_identifier amount expiration secrethash secret
      message_identifier delivered_message_identifier token_network_address
      token_network_identifier channel_identifier target lock envelope =>
    cases kind <;> rfl

/-- C3 counterexample: with role initiator, locally known secret [5, 5]
(not the absent sentinel), and routing returning the two routes [21, 22],
the emitted state change does carry both routes, but its secret field is the
freshly generated [7, 7], not the known secret [5, 5] — refuting the claim
that the secret field equals the known secret S. -/
theorem refundtransfer_initiator_known_secret_counterexample :
    envKnown.get_transfer_secret 77 = [5, 5] ∧
    ([5, 5] : List Nat) ≠ ABSENT_SECRET ∧
    on_message envKnown raidenT (mkMessage MessageKind.refundTransfer) = Except.ok
      [Event.get_best_routes_query 14 600 500 200 5 100,
       Event.handle_and_track_state_change
         (StateChange.ReceiveTransferRefundCancelRoute [21, 22]
           (lockedtransfersigned_from_message (mkMessage MessageKind.refundTransfer))
           (lockedtransfersigned_from_message (mkMessage MessageKind.refundTransfer)).balance_proof
           (lockedtransfersigned_from_message (mkMessage MessageKind.refundTransfer)).balance_proof.sender
           [7, 7])] ∧
    ([7, 7] : List Nat) ≠ [5, 5] :=
  ⟨rfl, by simp [ABSENT_SECRET], rfl, by simp⟩

/-- C3 amended: for a dispatched RefundTransfer with role initiator and a
locally known secret different from the absent sentinel, the emitted
ReceiveTransferRefundCancelRoute carries all routes routing returned,
unmodified, and its secret field is the freshly generated random secret, not
the locally known secret. -/
theorem refundtransfer_initiator_known_secret_keeps_routes
    (env : Env) (raiden : Raiden) (m : Message)
    (hk : m.kind = MessageKind.refundTransfer)
    (hrole : env.get_transfer_role m.lock.secrethash = "initiator")
    (hknown : env.get_transfer_secret m.lock.secrethash ≠ ABSENT_SECRET) :
    on_message env raiden m = Except.ok
      [Event.get_best_routes_query m.token_network_address raiden.default_one_to_n_address
         raiden.address m.target m.lock.amount m.sender,
       Event.handle_and_track_state_change
         (StateChange.ReceiveTransferRefundCancelRoute
           (env.get_best_routes m.token_network_address raiden.default_one_to_n_address
             raiden.address m.target m.lock.amount m.sender).1
           (lockedtransfersigned_from_message m)
           (lockedtransfersigned_from_message m).balance_proof
           (lockedtransfersigned_from_message m).balance_proof.sender
           env.random_secret)] := by
  rw [on_message_kind_refundtransfer env raiden m hk]
  simp [handle_message_refundtransfer, lockedtransfersigned_from_message,
    balanceproof_from_envelope, hrole, hknown]

/-- Witness for the amended C3 at the concrete fixtures: both routes [21, 22]
are kept and the secret field is the fresh [7, 7]. -/
theorem refundtransfer_initiator_known_secret_keeps_routes_witness :
    envKnown.get_transfer_secret 77 ≠ ABSENT_SECRET ∧
    on_message envKnown raidenT (mkMessage MessageKind.refundTransfer) = Except.ok
      [Event.get_best_routes_query 14 600 500 200 5 100,
       Event.handle_and_track_state_change
         (StateChange.ReceiveTransferRefundCancelRoute [21, 22]
           (lockedtransfersigned_from_message (mkMessage MessageKind.refundTransfer))
           (lockedtransfersigned_from_message (mkMessage MessageKind.refundTransfer)).balance_proof
           (lockedtransfersigned_from_message (mkMessage MessageKind.refundTransfer)).balance_proof.sender
           [7, 7])] :=
  ⟨by simp [envKnown, envAbsent, ABSENT_SECRET],
   refundtransfer_initiator_known_secret_keeps_routes envKnown raidenT
     (mkMessage MessageKind.refundTransfer) rfl rfl
     (by simp [envKnown, envAbsent, ABSENT_SECRET])⟩

/-- C7: for a dispatched RefundTransfer with role different from initiator,
exactly one ReceiveTransferRefund state change is emitted, carrying the
reconstructed transfer, its balance proof, that balance proof sender, and
exactly the route list routing returned (env is arbitrary, so also when that
list is empty). -/
theorem refundtransfer_mediator_forwards_routes
    (env : Env) (raiden : Raiden) (m : Message)
    (hk : m.kind = MessageKind.refundTransfer)
    (hrole : env.get_transfer_role m.lock.secrethash ≠ "initiator") :
    on_message env raiden m = Except.ok
      [Event.get_best_routes_query m.token_network_address raiden.default_one_to_n_address
         raiden.address m.target m.lock.amount m.sender,
       Event.handle_and_track_state_change
         (StateChange.ReceiveTransferRefund (lockedtransfersigned_from_message m)
           (lockedtransfersigned_from_message m).balance_proof
           (lockedtransfersigned_from_message m).balance_proof.sender
           (env.get_best_routes m.token_network_address raiden.default_one_to_n_address
             raiden.address m.target m.lock.amount m.sender).1)] := by
  rw [on_message_kind_refundtransfer env raiden m hk]
  simp [handle_message_refundtransfer, lockedtransfersigned_from_message,
    balanceproof_from_envelope, hrole]

/-- Witness for C7 at the concrete fixtures: role mediator and an empty route
list, which is forwarded as-is. -/
theorem refundtransfer_mediator_forwards_routes_witness :
    envMediator.get_transfer_role 77 ≠ "initiator" ∧
    on_message envMediator raidenT (mkMessage MessageKind.refundTransfer) = Except.ok
      [Event.get_best_routes_query 14 600 500 200 5 100,
       Event.handle_and_track_state_change
         (StateChange.ReceiveTransferRefund
           (lockedtransfersigned_from_message (mkMessage MessageKind.refundTransfer))
           (lockedtransfersigned_from_message (mkMessage MessageKind.refundTransfer)).balance_proof
           (lockedtransfersigned_from_message (mkMessage MessageKind.refundTransfer)).balance_proof.sender
           [])] :=
  ⟨by simp [envMediator, envAbsent],
   refundtransfer_mediator_forwards_routes envMediator raidenT
     (mkMessage MessageKind.refundTransfer) rfl
     (by simp [envMediator, envAbsent])⟩

/-- C8: for every dispatched Unlock and every dispatched LockExpired, the
balance proof is derived from the envelope and the emitted state change
sender is that balance proof sender; the outer message sender is quantified
freely and never used, so they may differ. -/
theorem unlock_lockexpired_sender_from_balance_proof :
    (∀ (env : Env) (raiden : Raiden) (m : Message), m.kind = MessageKind.unlock →
      on_message env raiden m = Except.ok
        [Event.handle_and_track_state_change
          (StateChange.ReceiveUnlock m.message_identifier m.secret
            (balanceproof_from_envelope m.envelope)
            (balanceproof_from_envelope m.envelope).sender)]) ∧
    (∀ (env : Env) (raiden : Raiden) (m : Message), m.kind = MessageKind.lockExpired →
      on_message env raiden m = Except.ok
        [Event.handle_and_track_state_change
          (StateChange.ReceiveLockExpired (balanceproof_from_envelope m.envelope).sender
            (balanceproof_from_envelope m.envelope) m.secrethash m.message_identifier)]) := by
  constructor <;> intro env raiden m hk <;>
    simp [on_message, hk, handle_message_unlock, handle_message_lockexpired]

/-- Witness for C8 at a concrete message whose outer sender (100) differs
from the envelope signer (900): both emitted state changes carry sender
900. -/
theorem unlock_lockexpired_sender_from_balance_proof_witness :
    (mkMessage MessageKind.unlock).sender ≠ (mkMessage MessageKind.unlock).envelope.signer ∧
    on_message envAbsent raidenT (mkMessage MessageKind.unlock) = Except.ok
      [Event.handle_and_track_state_change
        (StateChange.ReceiveUnlock 12 [9, 9] (balanceproof_from_envelope envelopeT) 900)] ∧
    on_message envAbsent raidenT (mkMessage MessageKind.lockExpired) = Except.ok
      [Event.handle_and_track_state_change
        (StateChange.ReceiveLockExpired 900 (balanceproof_from_envelope envelopeT) 77 12)] :=
  ⟨by simp [mkMessage, envelopeT],
   unlock_lockexpired_sender_from_balance_proof.1 envAbsent raidenT
     (mkMessage MessageKind.unlock) rfl,
   unlock_lockexpired_sender_from_balance_proof.2 envAbsent raidenT
     (mkMessage MessageKind.lockExpired) rfl⟩

/-- C10: for a dispatched RefundTransfer with role initiator, the secret
field of the emitted ReceiveTransferRefundCancelRoute is the freshly
generated random secret in every case, whether the locally known secret is
the absent sentinel or not; the locally known secret value itself is never
placed in the state change. -/
theorem refundtransfer_initiator_secret_always_fresh
    (env : Env) (raiden : Raiden) (m : Message)
    (hk : m.kind = MessageKind.refundTransfer)
    (hrole : env.get_transfer_role m.lock.secrethash = "initiator") :
    on_message env raiden m = Except.ok
      [Event.get_best_routes_query m.token_network_address raiden.default_one_to_n_address
         raiden.address m.target m.lock.amount m.sender,
       Event.handle_and_track_state_change
         (StateChange.ReceiveTransferRefundCancelRoute
           (if env.get_transfer_secret m.lock.secrethash = ABSENT_SECRET then []
            else (env.get_best_routes m.token_network_address raiden.default_one_to_n_address
              raiden.address m.target m.lock.amount m.sender).1)
           (lockedtransfersigned_from_message m)
           (lockedtransfersigned_from_message m).balance_proof
           (lockedtransfersigned_from_message m).balance_proof.sender
           env.random_secret)] := by
  rw [on_message_kind_refundtransfer env raiden m hk]
  by_cases hs : env.get_transfer_secret m.lock.secrethash = ABSENT_SECRET <;>
    simp [handle_message_refundtransfer, lockedtransfersigned_from_message,
      balanceproof_from_envelope, hrole, hs]

/-- Witness for C10, covering both the absent-secret and the known-secret
environments: the secret field is the environment random secret in both. -/
theorem refundtransfer_initiator_secret_always_fresh_witness :
    on_message envAbsent raidenT (mkMessage MessageKind.refundTransfer) = Except.ok
      [Event.get_best_routes_query 14 600 500 200 5 100,
       Event.handle_and_track_state_change
         (StateChange.ReceiveTransferRefundCancelRoute []
           (lockedtransfersigned_from_message (mkMessage MessageKind.refundTransfer))
           (lockedtransfersigned_from_message (mkMessage MessageKind.refundTransfer)).balance_proof
           (lockedtransfersigned_from_message (mkMessage MessageKind.refundTransfer)).balance_proof.sender
           envAbsent.random_secret)] ∧
    on_message envKnown raidenT (mkMessage MessageKind.refundTransfer) = Except.ok
      [Event.get_best_routes_query 14 600 500 200 5 100,
       Event.handle_and_track_state_change
         (StateChange.ReceiveTransferRefundCancelRoute [21, 22]
           (lockedtransfersigned_from_message (mkMessage MessageKind.refundTransfer))
           (lockedtransfersigned_from_message (mkMessage MessageKind.refundTransfer)).balance_proof
           (lockedtransfersigned_from_message (mkMessage MessageKind.refundTransfer)).balance_proof.sender
           [7, 7])] :=
  ⟨refundtransfer_initiator_secret_always_fresh envAbsent raidenT
     (mkMessage MessageKind.refundTransfer) rfl rfl,
   refundtransfer_initiator_secret_always_fresh envKnown raidenT
     (mkMessage MessageKind.refundTransfer) rfl rfl⟩
